import Mathlib

/-!
The transfer entry point of ru_tts (`src/text2speech.c`).

A shallow embedding of `text2speech.c`: the default configuration
`ru_tts_config`, the transcription sink hooks `transcription_init` and
`synth_function`, and the entry point `ru_tts_transfer`, followed by the
properties established about them.

Conventions of the embedding.

* A C `int` is an `Int`.  Every arithmetic operator of the source is written
  through one of the `c_*` functions below, which take the normalisation
  `wrap : Int → Int` applied to the mathematical result.  With `wrap := id`
  the integers are unbounded; with `wrap := wrap32` they are 32-bit
  two's-complement values and overflow wraps around modulo `2 ^ 32`.
* Bytes are `Nat`s, buffers are lists of bytes.
* The headers `ru_tts.h`, `sink.h`, `transcription.h` and `synth.h` are not
  part of the sources.  Their macros are the fields of `Macros`, the
  functions they declare (`sink_setup`, `synth`, `process_text`) are the
  fields of `Collaborators`, and the record types they declare are modelled
  with the fields that `text2speech.c` reads and writes.
-/

namespace RuTts

/-! ## Machine integers -/

/-- Two's-complement reduction of a mathematical integer to the range of a
32-bit C `int`, `[-2^31, 2^31)`. -/
def wrap32 (x : Int) : Int :=
  (x + 2147483648) % 4294967296 - 2147483648

/-- C `a + b` on `int`. -/
def c_add (wrap : Int → Int) (a b : Int) : Int := wrap (a + b)

/-- C `a - b` on `int`. -/
def c_sub (wrap : Int → Int) (a b : Int) : Int := wrap (a - b)

/-- C `a * b` on `int`. -/
def c_mul (wrap : Int → Int) (a b : Int) : Int := wrap (a * b)

/-- C `a / b` on `int`: the quotient truncates toward zero. -/
def c_div (wrap : Int → Int) (a b : Int) : Int := wrap (Int.tdiv a b)

/-- C `a << n` on `int`: multiplication by `2 ^ n`. -/
def c_shl (wrap : Int → Int) (a : Int) (n : Nat) : Int := wrap (a * 2 ^ n)

/-- C `a >> n` on `int`: the arithmetic shift, rounding toward minus
infinity. -/
def c_shr (a : Int) (n : Nat) : Int := Int.shiftRight a n

/-- C `a & ~b` on non-negative values: the bits of `a` that are not bits of
`b`. -/
def c_and_not (a b : Nat) : Nat := a ^^^ (a &&& b)

/-- The cast `(uint8_t) x`. -/
def to_uint8 (x : Int) : Int := x % 256

/-- The cast `(uint16_t) x`. -/
def to_uint16 (x : Int) : Int := x % 65536

/-! ## Data model -/

/-- The record `ru_tts_conf_t` (declared in `ru_tts.h`): five `int` fields. -/
structure ru_tts_conf_t where
  alternative_voice : Int
  speech_rate : Int
  voice_pitch : Int
  gap_factor : Int
  intonation : Int
deriving DecidableEq, Repr

/-- Default TTS configuration. -/
def ru_tts_config : ru_tts_conf_t :=
  { alternative_voice := 0
    speech_rate := 130
    voice_pitch := 50
    gap_factor := 80
    intonation := 80 }

/-- The two voice tables a control block can point to: `&male`, `&female`. -/
inductive voice_ref where
  | male
  | female
deriving DecidableEq, Repr

/-- The functions stored in the `function` field of a sink. -/
inductive sink_callback where
  | synth_function
  | consumer
deriving DecidableEq, Repr

/-- The functions stored in the `custom_reset` field of a sink. -/
inductive reset_hook where
  | transcription_init
deriving DecidableEq, Repr

/-- What the `user_data` pointer of a sink refers to. -/
inductive user_data_ref where
  | ttscb
  | user (handle : Nat)
deriving DecidableEq, Repr

/-- The record `sink_t` (declared in `sink.h`).  The buffer is held by
value; `custom_reset` is `none` for a null pointer. -/
structure sink_t where
  buffer : List Nat
  buffer_size : Nat
  buffer_offset : Nat
  status : Int
  function : sink_callback
  user_data : user_data_ref
  custom_reset : Option reset_hook
deriving DecidableEq, Repr

/-- The `transcription_state` member of the control block. -/
structure transcription_state_t where
  flags : Nat
  clause_type : Nat
deriving DecidableEq, Repr

/-- The control block `ttscb_t` (declared in `synth.h`). -/
structure ttscb_t where
  voice : voice_ref
  rate_factor : Int
  stretch : Int
  gaplen : Int
  mintone : Int
  maxtone : Int
  transcription_state : transcription_state_t
  wave_consumer : sink_t
deriving DecidableEq, Repr

/-- Macros of `transcription.h` used by `text2speech.c`. -/
structure Macros where
  TRANSCRIPTION_BUFFER_SIZE : Nat
  TRANSCRIPTION_START : Nat
  TRANSCRIPTION_MAXLEN : Nat
  CLAUSE_DONE : Nat
deriving DecidableEq, Repr

/-! ## Parameter translation (`ru_tts_transfer`, lines 82 and 88-135) -/

/-- Line 82: `int gaplen = (1000 - (ru_tts_config.speech_rate << 2)) >> 2;` -/
def initial_gaplen (wrap : Int → Int) (speech_rate : Int) : Int :=
  c_shr (c_sub wrap 1000 (c_shl wrap speech_rate 2)) 2

/-- Lines 88-89: `ttscb.voice = ru_tts_config.alternative_voice ? &female : &male;` -/
def choose_voice (cfg : ru_tts_conf_t) (ttscb : ttscb_t) : ttscb_t :=
  { ttscb with voice := if cfg.alternative_voice ≠ 0 then voice_ref.female else voice_ref.male }

/-- Lines 91-113, "Adjust speech rate": sets `rate_factor` and `stretch`
and, in the two out-of-band branches, overrides the local `gaplen`. -/
def adjust_speech_rate (wrap : Int → Int) (cfg : ru_tts_conf_t)
    (ttscb : ttscb_t) (gaplen : Int) : ttscb_t × Int :=
  if cfg.speech_rate < 0 then
    ({ ttscb with rate_factor := 125, stretch := 10 }, 250)
  else if cfg.speech_rate > 250 then
    ({ ttscb with rate_factor := 0, stretch := 4 }, 0)
  else if cfg.speech_rate < 125 then
    ({ ttscb with rate_factor := c_sub wrap 125 cfg.speech_rate, stretch := 10 }, gaplen)
  else
    ({ ttscb with rate_factor := c_sub wrap 250 cfg.speech_rate, stretch := 4 }, gaplen)

/-- Lines 114-116: `gaplen *= gap_factor; gaplen += 50; gaplen /= 100;` -/
def scale_gaplen (wrap : Int → Int) (cfg : ru_tts_conf_t) (gaplen : Int) : Int :=
  let gaplen := c_mul wrap gaplen cfg.gap_factor
  let gaplen := c_add wrap gaplen 50
  c_div wrap gaplen 100

/-- Lines 117-121: the clamped store into `ttscb.gaplen`. -/
def store_gaplen (ttscb : ttscb_t) (gaplen : Int) : ttscb_t :=
  if gaplen < 0 then
    { ttscb with gaplen := 0 }
  else if gaplen > 250 then
    { ttscb with gaplen := 250 }
  else
    { ttscb with gaplen := to_uint8 gaplen }

/-- Lines 123-128, "Adjust voice pitch". -/
def adjust_voice_pitch (wrap : Int → Int) (cfg : ru_tts_conf_t) (ttscb : ttscb_t) : ttscb_t :=
  if cfg.voice_pitch < 0 then
    { ttscb with mintone := 50 }
  else if cfg.voice_pitch > 250 then
    { ttscb with mintone := 300 }
  else
    { ttscb with mintone := to_uint16 (c_add wrap cfg.voice_pitch 50) }

/-- Lines 130-135, "Adjust intonation". -/
def adjust_intonation (wrap : Int → Int) (cfg : ru_tts_conf_t) (ttscb : ttscb_t) : ttscb_t :=
  if cfg.intonation < 0 then
    { ttscb with maxtone := ttscb.mintone }
  else if cfg.intonation > 100 then
    { ttscb with maxtone := c_shl wrap ttscb.mintone 1 }
  else
    { ttscb with
      maxtone := c_div wrap (c_mul wrap ttscb.mintone (c_add wrap cfg.intonation 100)) 100 }

/-- Lines 88-135 of `ru_tts_transfer` in source order, acting on the
control block; `gaplen` is the local initialised at line 82. -/
def adjust_params (wrap : Int → Int) (cfg : ru_tts_conf_t) (ttscb : ttscb_t) (gaplen : Int) :
    ttscb_t :=
  let ttscb := choose_voice cfg ttscb
  let r := adjust_speech_rate wrap cfg ttscb gaplen
  let ttscb := r.1
  let gaplen := scale_gaplen wrap cfg r.2
  let ttscb := store_gaplen ttscb gaplen
  let ttscb := adjust_voice_pitch wrap cfg ttscb
  adjust_intonation wrap cfg ttscb

/-- The parameter translation of `ru_tts_transfer`: line 82 followed by
lines 88-135.  The two `sink_setup` calls in between write the sinks only. -/
def translate_params (wrap : Int → Int) (cfg : ru_tts_conf_t) (ttscb : ttscb_t) : ttscb_t :=
  adjust_params wrap cfg ttscb (initial_gaplen wrap cfg.speech_rate)

/-- The value of the local `gaplen` after line 116, before the clamped
store. -/
def scaled_gaplen (wrap : Int → Int) (cfg : ru_tts_conf_t) (ttscb : ttscb_t) : Int :=
  scale_gaplen wrap cfg
    (adjust_speech_rate wrap cfg (choose_voice cfg ttscb)
      (initial_gaplen wrap cfg.speech_rate)).2

/-! ## The transcription sink hooks and the entry point -/

/-- Calls that leave `text2speech.c`, in the order they are made. -/
inductive Event where
  | process_text (text : List Nat)
  | synth (chunk : List Nat)
  | consumer (data : List Nat) (length : Nat)
  | free
deriving DecidableEq, Repr

/-- The state the callbacks act on: the control block and the calls made so
far. -/
structure Machine where
  ttscb : ttscb_t
  trace : List Event
deriving DecidableEq, Repr

/-- The functions of the other translation units that `text2speech.c`
calls.  `synth` receives the way to call the audio consumer, `process_text`
receives the two hooks of the transcription sink. -/
structure Collaborators where
  sink_setup : sink_t → List Nat → Nat → sink_callback → user_data_ref → sink_t
  synth : (List Nat → Nat → Machine → Int × Machine) →
    List Nat → Machine → List Nat × Machine
  process_text : (List Nat → Nat → Machine → Int × List Nat × Machine) →
    (sink_t → sink_t) → List Nat → sink_t → Machine → sink_t × Machine

/-- `memset(buffer, c, n)`. -/
def memset (buffer : List Nat) (c : Nat) (n : Nat) : List Nat :=
  List.replicate n c ++ buffer.drop n

/-- Lines 34-39: `transcription_init`. -/
def transcription_init (M : Macros) (consumer : sink_t) : sink_t :=
  let buffer := consumer.buffer
  { consumer with
    buffer := memset buffer 43 M.TRANSCRIPTION_BUFFER_SIZE
    buffer_offset := M.TRANSCRIPTION_START }

/-- A call of the audio consumer `consumer(buffer, length, user_data)`. -/
def call_consumer (consumer : List Nat → Nat → Nat → Int) (user_data : Nat)
    (buffer : List Nat) (length : Nat) (m : Machine) : Int × Machine :=
  (consumer buffer length user_data,
    { m with trace := m.trace ++ [Event.consumer buffer length] })

/-- Line 53: the call `synth(buffer, ttscb)`. -/
def call_synth (env : Collaborators) (consumer : List Nat → Nat → Nat → Int) (user_data : Nat)
    (buffer : List Nat) (m : Machine) : List Nat × Machine :=
  env.synth (call_consumer consumer user_data) buffer
    { m with trace := m.trace ++ [Event.synth buffer] }

/-- Lines 46-52: the clause boundary handling of `synth_function`, on the
chunk and the control block. -/
def clause_boundary (M : Macros) (buffer : List Nat) (length : Nat) (ttscb : ttscb_t) :
    List Nat × ttscb_t :=
  if ttscb.transcription_state.flags &&& M.CLAUSE_DONE ≠ 0 then
    (buffer,
      { ttscb with
        transcription_state :=
          { ttscb.transcription_state with
            flags := c_and_not ttscb.transcription_state.flags M.CLAUSE_DONE } })
  else
    (buffer.set length 44,
      { ttscb with
        transcription_state := { ttscb.transcription_state with clause_type := 0 } })

/-- Lines 41-56: `synth_function`.  Returns the status, the buffer and the
state after the call. -/
def synth_function (M : Macros) (env : Collaborators) (consumer : List Nat → Nat → Nat → Int)
    (user_data : Nat) (buffer : List Nat) (length : Nat) (m : Machine) :
    Int × List Nat × Machine :=
  if length > M.TRANSCRIPTION_START then
    let r := clause_boundary M buffer length m.ttscb
    let s := call_synth env consumer user_data r.1 { m with ttscb := r.2 }
    (s.2.ttscb.wave_consumer.status, s.1, s.2)
  else
    (m.ttscb.wave_consumer.status, buffer, m)

/-- Line 138: the call `process_text(text, &transcription_consumer)`. -/
def call_process_text (M : Macros) (env : Collaborators)
    (consumer : List Nat → Nat → Nat → Int) (user_data : Nat) (text : List Nat)
    (transcription_consumer : sink_t) (m : Machine) : sink_t × Machine :=
  env.process_text (synth_function M env consumer user_data) (transcription_init M)
    text transcription_consumer { m with trace := m.trace ++ [Event.process_text text] }

/-- The locals `ttscb` and `transcription_consumer` of `ru_tts_transfer`,
with the calls made so far. -/
structure Frame where
  ttscb : ttscb_t
  transcription_consumer : sink_t
  trace : List Event
deriving DecidableEq, Repr

/-- Lines 73-141: `ru_tts_transfer`.  `transcription_buffer` is what
`malloc(TRANSCRIPTION_BUFFER_SIZE)` returned (`none` for a null pointer),
`cfg` is the value of the global `ru_tts_config` at the call, and `fr` holds
the two locals as they are on entry. -/
def ru_tts_transfer (M : Macros) (wrap : Int → Int) (env : Collaborators) (cfg : ru_tts_conf_t)
    (transcription_buffer : Option (List Nat))
    (text : List Nat) (wave_buffer : List Nat) (wave_buffer_size : Nat)
    (consumer : List Nat → Nat → Nat → Int) (user_data : Nat) (fr : Frame) : Frame :=
  match transcription_buffer with
  | none => fr
  | some transcription_buffer =>
    let gaplen := initial_gaplen wrap cfg.speech_rate
    let ttscb : ttscb_t :=
      { fr.ttscb with
        wave_consumer :=
          env.sink_setup fr.ttscb.wave_consumer wave_buffer wave_buffer_size
            sink_callback.consumer (user_data_ref.user user_data) }
    let transcription_consumer :=
      env.sink_setup fr.transcription_consumer transcription_buffer M.TRANSCRIPTION_MAXLEN
        sink_callback.synth_function user_data_ref.ttscb
    let transcription_consumer :=
      { transcription_consumer with custom_reset := some reset_hook.transcription_init }
    let ttscb := adjust_params wrap cfg ttscb gaplen
    let r := call_process_text M env consumer user_data text transcription_consumer
      { ttscb := ttscb, trace := fr.trace }
    { ttscb := r.2.ttscb
      transcription_consumer := r.1
      trace := r.2.trace ++ [Event.free] }

/-! ## Reference definitions taken from the specification -/

/-- The specification's `clamp(x, lo, hi)`. -/
def clamp (x lo hi : Int) : Int :=
  if x < lo then lo else if x > hi then hi else x

/-- The specification's `gaplen₀ = (1000 − speech_rate·4) / 4`, with the
truncating integer division. -/
def gaplen0_spec (speech_rate : Int) : Int :=
  Int.tdiv (1000 - speech_rate * 4) 4

/-- The specification's `gaplen₀` after the rate bands: forced to 250 below
the band, to 0 above it. -/
def banded_gaplen0_spec (speech_rate : Int) : Int :=
  if speech_rate < 0 then 250
  else if speech_rate > 250 then 0
  else gaplen0_spec speech_rate

/-- The specification's `gaplen`, over unbounded integers. -/
def gaplen_spec (speech_rate gap_factor : Int) : Int :=
  clamp (Int.tdiv (banded_gaplen0_spec speech_rate * gap_factor + 50) 100) 0 250

/-! ## Sample inputs -/

/-- A sink with every field zero. -/
def zero_sink : sink_t :=
  { buffer := []
    buffer_size := 0
    buffer_offset := 0
    status := 0
    function := sink_callback.consumer
    user_data := user_data_ref.user 0
    custom_reset := none }

/-- A control block with every field zero. -/
def zero_ttscb : ttscb_t :=
  { voice := voice_ref.male
    rate_factor := 0
    stretch := 0
    gaplen := 0
    mintone := 0
    maxtone := 0
    transcription_state := { flags := 0, clause_type := 0 }
    wave_consumer := zero_sink }


/-- Sample values for the macros of `transcription.h`: a two-byte prefix, a
chunk of at most six bytes in a buffer of eight, `CLAUSE_DONE` the bit of
weight 4. -/
def sample_macros : Macros :=
  { TRANSCRIPTION_BUFFER_SIZE := 8
    TRANSCRIPTION_START := 2
    TRANSCRIPTION_MAXLEN := 6
    CLAUSE_DONE := 4 }

/-- Collaborators that return at once: `sink_setup` writes the fields it is
given, `synth` and `process_text` change nothing. -/
def idle_collaborators : Collaborators :=
  { sink_setup := fun s buffer size function user_data =>
      { s with
        buffer := buffer
        buffer_size := size
        buffer_offset := 0
        status := 0
        function := function
        user_data := user_data
        custom_reset := none }
    synth := fun _ buffer m => (buffer, m)
    process_text := fun _ _ _ s m => (s, m) }

/-- An audio consumer that always answers "continue". -/
def silent_consumer (_buffer : List Nat) (_length : Nat) (_user_data : Nat) : Int := 0

/-- A machine state with the zero control block, the given flags and clause
type, and no call made yet. -/
def sample_machine (flags clause_type : Nat) : Machine :=
  { ttscb :=
      { zero_ttscb with
        transcription_state := { flags := flags, clause_type := clause_type } }
    trace := [] }

/-- A transcription buffer of eight bytes holding a chunk of three codes
after the two-byte prefix. -/
def sample_buffer : List Nat := [43, 43, 7, 8, 9, 43, 43, 43]

/-- The locals of `ru_tts_transfer` with every field zero and no call made
yet. -/
def zero_frame : Frame :=
  { ttscb := zero_ttscb
    transcription_consumer := zero_sink
    trace := [] }


/-! ## Arithmetic of the two integer models -/

theorem wrap32_eq_self (x : Int) (h0 : -2147483648 ≤ x) (h1 : x < 2147483648) :
    wrap32 x = x := by
  unfold wrap32
  omega

theorem c_shr_two (x : Int) : c_shr x 2 = x / 4 := by
  unfold c_shr
  exact Int.shiftRight_eq_div_pow x 2

theorem initial_gaplen_id (sr : Int) : initial_gaplen id sr = 250 - sr := by
  unfold initial_gaplen
  rw [c_shr_two]
  simp only [c_sub, c_shl, id]
  omega

theorem initial_gaplen_wrap32 (sr : Int) (h0 : 0 ≤ sr) (h1 : sr ≤ 250) :
    initial_gaplen wrap32 sr = 250 - sr := by
  unfold initial_gaplen
  rw [c_shr_two]
  simp only [c_sub, c_shl]
  rw [wrap32_eq_self (sr * 2 ^ 2) (by omega) (by omega),
    wrap32_eq_self (1000 - sr * 2 ^ 2) (by omega) (by omega)]
  omega

theorem gaplen0_spec_eq (sr : Int) (h1 : sr ≤ 250) : gaplen0_spec sr = 250 - sr := by
  unfold gaplen0_spec
  rw [Int.tdiv_eq_ediv (by omega) (by omega)]
  omega

/-! ## Which fields each step of the translation leaves alone -/

theorem adjust_speech_rate_voice (wrap : Int → Int) (cfg : ru_tts_conf_t) (t : ttscb_t)
    (g : Int) : (adjust_speech_rate wrap cfg t g).1.voice = t.voice := by
  unfold adjust_speech_rate
  split_ifs <;> rfl

theorem store_gaplen_voice (t : ttscb_t) (g : Int) : (store_gaplen t g).voice = t.voice := by
  unfold store_gaplen
  split_ifs <;> rfl

theorem store_gaplen_rate_factor (t : ttscb_t) (g : Int) :
    (store_gaplen t g).rate_factor = t.rate_factor := by
  unfold store_gaplen
  split_ifs <;> rfl

theorem store_gaplen_stretch (t : ttscb_t) (g : Int) :
    (store_gaplen t g).stretch = t.stretch := by
  unfold store_gaplen
  split_ifs <;> rfl

theorem adjust_voice_pitch_voice (wrap : Int → Int) (cfg : ru_tts_conf_t) (t : ttscb_t) :
    (adjust_voice_pitch wrap cfg t).voice = t.voice := by
  unfold adjust_voice_pitch
  split_ifs <;> rfl

theorem adjust_voice_pitch_rate_factor (wrap : Int → Int) (cfg : ru_tts_conf_t) (t : ttscb_t) :
    (adjust_voice_pitch wrap cfg t).rate_factor = t.rate_factor := by
  unfold adjust_voice_pitch
  split_ifs <;> rfl

theorem adjust_voice_pitch_stretch (wrap : Int → Int) (cfg : ru_tts_conf_t) (t : ttscb_t) :
    (adjust_voice_pitch wrap cfg t).stretch = t.stretch := by
  unfold adjust_voice_pitch
  split_ifs <;> rfl

theorem adjust_voice_pitch_gaplen (wrap : Int → Int) (cfg : ru_tts_conf_t) (t : ttscb_t) :
    (adjust_voice_pitch wrap cfg t).gaplen = t.gaplen := by
  unfold adjust_voice_pitch
  split_ifs <;> rfl

theorem adjust_intonation_voice (wrap : Int → Int) (cfg : ru_tts_conf_t) (t : ttscb_t) :
    (adjust_intonation wrap cfg t).voice = t.voice := by
  unfold adjust_intonation
  split_ifs <;> rfl

theorem adjust_intonation_rate_factor (wrap : Int → Int) (cfg : ru_tts_conf_t) (t : ttscb_t) :
    (adjust_intonation wrap cfg t).rate_factor = t.rate_factor := by
  unfold adjust_intonation
  split_ifs <;> rfl

theorem adjust_intonation_stretch (wrap : Int → Int) (cfg : ru_tts_conf_t) (t : ttscb_t) :
    (adjust_intonation wrap cfg t).stretch = t.stretch := by
  unfold adjust_intonation
  split_ifs <;> rfl

theorem adjust_intonation_gaplen (wrap : Int → Int) (cfg : ru_tts_conf_t) (t : ttscb_t) :
    (adjust_intonation wrap cfg t).gaplen = t.gaplen := by
  unfold adjust_intonation
  split_ifs <;> rfl

theorem adjust_intonation_mintone (wrap : Int → Int) (cfg : ru_tts_conf_t) (t : ttscb_t) :
    (adjust_intonation wrap cfg t).mintone = t.mintone := by
  unfold adjust_intonation
  split_ifs <;> rfl

/-! ## Each derived field as a function of the configuration -/

theorem translate_voice (wrap : Int → Int) (cfg : ru_tts_conf_t) (t : ttscb_t) :
    (translate_params wrap cfg t).voice =
      if cfg.alternative_voice ≠ 0 then voice_ref.female else voice_ref.male := by
  simp only [translate_params, adjust_params, adjust_intonation_voice,
    adjust_voice_pitch_voice,
    store_gaplen_voice, adjust_speech_rate_voice]
  rfl

theorem translate_rate_factor (wrap : Int → Int) (cfg : ru_tts_conf_t) (t : ttscb_t) :
    (translate_params wrap cfg t).rate_factor =
      if cfg.speech_rate < 0 then 125
      else if cfg.speech_rate > 250 then 0
      else if cfg.speech_rate < 125 then c_sub wrap 125 cfg.speech_rate
      else c_sub wrap 250 cfg.speech_rate := by
  simp only [translate_params, adjust_params, adjust_intonation_rate_factor,
    adjust_voice_pitch_rate_factor,
    store_gaplen_rate_factor]
  unfold adjust_speech_rate
  split_ifs <;> rfl

theorem translate_stretch (wrap : Int → Int) (cfg : ru_tts_conf_t) (t : ttscb_t) :
    (translate_params wrap cfg t).stretch =
      if cfg.speech_rate < 0 then 10
      else if cfg.speech_rate > 250 then 4
      else if cfg.speech_rate < 125 then 10
      else 4 := by
  simp only [translate_params, adjust_params, adjust_intonation_stretch,
    adjust_voice_pitch_stretch,
    store_gaplen_stretch]
  unfold adjust_speech_rate
  split_ifs <;> rfl

theorem adjust_speech_rate_snd (wrap : Int → Int) (cfg : ru_tts_conf_t) (t : ttscb_t)
    (g : Int) :
    (adjust_speech_rate wrap cfg t g).2 =
      if cfg.speech_rate < 0 then 250 else if cfg.speech_rate > 250 then 0 else g := by
  unfold adjust_speech_rate
  split_ifs <;> rfl

theorem store_gaplen_gaplen (t : ttscb_t) (g : Int) :
    (store_gaplen t g).gaplen = if g < 0 then 0 else if g > 250 then 250 else to_uint8 g := by
  unfold store_gaplen
  split_ifs <;> rfl

theorem translate_gaplen (wrap : Int → Int) (cfg : ru_tts_conf_t) (t : ttscb_t) :
    (translate_params wrap cfg t).gaplen =
      if scaled_gaplen wrap cfg t < 0 then 0
      else if scaled_gaplen wrap cfg t > 250 then 250
      else to_uint8 (scaled_gaplen wrap cfg t) := by
  simp only [translate_params, adjust_params, adjust_intonation_gaplen,
    adjust_voice_pitch_gaplen,
    store_gaplen_gaplen, scaled_gaplen]

theorem scaled_gaplen_eq (wrap : Int → Int) (cfg : ru_tts_conf_t) (t : ttscb_t) :
    scaled_gaplen wrap cfg t =
      c_div wrap (c_add wrap (c_mul wrap
        (if cfg.speech_rate < 0 then 250 else if cfg.speech_rate > 250 then 0
          else initial_gaplen wrap cfg.speech_rate) cfg.gap_factor) 50) 100 := by
  simp only [scaled_gaplen, scale_gaplen, adjust_speech_rate_snd]

theorem adjust_voice_pitch_mintone (wrap : Int → Int) (cfg : ru_tts_conf_t) (t : ttscb_t) :
    (adjust_voice_pitch wrap cfg t).mintone =
      if cfg.voice_pitch < 0 then 50
      else if cfg.voice_pitch > 250 then 300
      else to_uint16 (c_add wrap cfg.voice_pitch 50) := by
  unfold adjust_voice_pitch
  split_ifs <;> rfl

theorem translate_mintone (wrap : Int → Int) (cfg : ru_tts_conf_t) (t : ttscb_t) :
    (translate_params wrap cfg t).mintone =
      if cfg.voice_pitch < 0 then 50
      else if cfg.voice_pitch > 250 then 300
      else to_uint16 (c_add wrap cfg.voice_pitch 50) := by
  simp only [translate_params, adjust_params, adjust_intonation_mintone,
    adjust_voice_pitch_mintone]

theorem adjust_intonation_maxtone (wrap : Int → Int) (cfg : ru_tts_conf_t) (t : ttscb_t) :
    (adjust_intonation wrap cfg t).maxtone =
      if cfg.intonation < 0 then t.mintone
      else if cfg.intonation > 100 then c_shl wrap t.mintone 1
      else c_div wrap (c_mul wrap t.mintone (c_add wrap cfg.intonation 100)) 100 := by
  unfold adjust_intonation
  split_ifs <;> rfl

theorem translate_maxtone (wrap : Int → Int) (cfg : ru_tts_conf_t) (t : ttscb_t) :
    (translate_params wrap cfg t).maxtone =
      if cfg.intonation < 0 then (translate_params wrap cfg t).mintone
      else if cfg.intonation > 100 then c_shl wrap (translate_params wrap cfg t).mintone 1
      else c_div wrap (c_mul wrap (translate_params wrap cfg t).mintone
        (c_add wrap cfg.intonation 100)) 100 := by
  rw [translate_mintone]
  simp only [translate_params, adjust_params, adjust_intonation_maxtone,
    adjust_voice_pitch_mintone]

theorem clamped_store_eq_clamp (g : Int) :
    (if g < 0 then 0 else if g > 250 then 250 else to_uint8 g) = clamp g 0 250 := by
  unfold clamp to_uint8
  split_ifs <;> omega

theorem banded_initial_gaplen_id (sr : Int) :
    (if sr < 0 then 250 else if sr > 250 then 0 else initial_gaplen id sr) =
      banded_gaplen0_spec sr := by
  unfold banded_gaplen0_spec
  split_ifs with h1 h2
  · rfl
  · rfl
  · rw [initial_gaplen_id, gaplen0_spec_eq _ (by omega)]

/-! ## Rate bands -/

/-- C1: for every integer `speech_rate` the pair `(rate_factor, stretch)`
derived by `ru_tts_transfer` follows the four-band rule, first match
winning: `(125, 10)` below 0, `(0, 4)` above 250, `(125 - speech_rate, 10)`
on `[0, 125)` and `(250 - speech_rate, 4)` on `[125, 250]`, both with
unbounded integers and with wrapping 32-bit arithmetic; at the boundaries
-1, 0, 124, 125, 250, 251 the pairs are (125,10), (125,10), (1,10), (125,4),
(0,4), (0,4). -/
theorem C1_rate_bands (cfg : ru_tts_conf_t) (ttscb : ttscb_t) :
    (((translate_params id cfg ttscb).rate_factor, (translate_params id cfg ttscb).stretch) =
        if cfg.speech_rate < 0 then (125, 10)
        else if cfg.speech_rate > 250 then (0, 4)
        else if cfg.speech_rate < 125 then (125 - cfg.speech_rate, 10)
        else (250 - cfg.speech_rate, 4)) ∧
    (((translate_params wrap32 cfg ttscb).rate_factor,
        (translate_params wrap32 cfg ttscb).stretch) =
        if cfg.speech_rate < 0 then (125, 10)
        else if cfg.speech_rate > 250 then (0, 4)
        else if cfg.speech_rate < 125 then (125 - cfg.speech_rate, 10)
        else (250 - cfg.speech_rate, 4)) ∧
    ((translate_params id { cfg with speech_rate := -1 } ttscb).rate_factor,
      (translate_params id { cfg with speech_rate := -1 } ttscb).stretch) = (125, 10) ∧
    ((translate_params id { cfg with speech_rate := 0 } ttscb).rate_factor,
      (translate_params id { cfg with speech_rate := 0 } ttscb).stretch) = (125, 10) ∧
    ((translate_params id { cfg with speech_rate := 124 } ttscb).rate_factor,
      (translate_params id { cfg with speech_rate := 124 } ttscb).stretch) = (1, 10) ∧
    ((translate_params id { cfg with speech_rate := 125 } ttscb).rate_factor,
      (translate_params id { cfg with speech_rate := 125 } ttscb).stretch) = (125, 4) ∧
    ((translate_params id { cfg with speech_rate := 250 } ttscb).rate_factor,
      (translate_params id { cfg with speech_rate := 250 } ttscb).stretch) = (0, 4) ∧
    ((translate_params id { cfg with speech_rate := 251 } ttscb).rate_factor,
      (translate_params id { cfg with speech_rate := 251 } ttscb).stretch) = (0, 4) := by
  refine ⟨?_, ?_, ?_, ?_, ?_, ?_, ?_, ?_⟩
  · rw [translate_rate_factor, translate_stretch]
    simp only [c_sub, id]
    split_ifs <;> rfl
  · rw [translate_rate_factor, translate_stretch]
    simp only [c_sub]
    split_ifs with h1 h2 h3
    · rfl
    · rfl
    · rw [wrap32_eq_self _ (by omega) (by omega)]
    · rw [wrap32_eq_self _ (by omega) (by omega)]
  all_goals
    rw [translate_rate_factor, translate_stretch]
    simp [c_sub]

/-! ## Gap length -/

/-- C2: with unbounded integers, for every `speech_rate` and `gap_factor`
the derived `gaplen` is
`clamp(trunc((g0 * gap_factor + 50) / 100), 0, 250)`, the division
truncating toward zero, where `g0` is 250 for `speech_rate < 0`, 0 for
`speech_rate > 250` and `(1000 - 4 * speech_rate) / 4` otherwise. -/
theorem C2_gaplen_unbounded (cfg : ru_tts_conf_t) (ttscb : ttscb_t) :
    (translate_params id cfg ttscb).gaplen = gaplen_spec cfg.speech_rate cfg.gap_factor := by
  rw [translate_gaplen, clamped_store_eq_clamp, scaled_gaplen_eq, banded_initial_gaplen_id]
  rfl

/-- C3: for `0 <= speech_rate <= 250`, the band in which the initial gap
length is not overridden, the shift expression of the code
`(1000 - (speech_rate << 2)) >> 2` equals the specification's truncating
division `(1000 - speech_rate * 4) / 4`, and both are `250 - speech_rate`;
the same value results with wrapping 32-bit arithmetic. -/
theorem C3_initial_gaplen_refines (speech_rate : Int) (h0 : 0 ≤ speech_rate)
    (h1 : speech_rate ≤ 250) :
    initial_gaplen id speech_rate = gaplen0_spec speech_rate ∧
    initial_gaplen id speech_rate = 250 - speech_rate ∧
    initial_gaplen wrap32 speech_rate = 250 - speech_rate :=
  ⟨by rw [initial_gaplen_id, gaplen0_spec_eq _ h1], initial_gaplen_id _,
    initial_gaplen_wrap32 _ h0 h1⟩

/-- Witness for C3 at the default rate 130. -/
theorem C3_initial_gaplen_refines_witness :
    (0 : Int) ≤ 130 ∧ (130 : Int) ≤ 250 ∧
    initial_gaplen id 130 = gaplen0_spec 130 ∧
    initial_gaplen id 130 = 250 - 130 ∧
    initial_gaplen wrap32 130 = 250 - 130 :=
  ⟨by decide, by decide, C3_initial_gaplen_refines 130 (by decide) (by decide)⟩


theorem tdiv_hundred (x : Int) :
    Int.tdiv x 100 = if 0 ≤ x then x / 100 else -((-x) / 100) := by
  split_ifs with h
  · exact Int.tdiv_eq_ediv h (by decide)
  · have hx : x = -(-x) := by omega
    rw [hx, Int.neg_tdiv, Int.tdiv_eq_ediv (by omega) (by decide)]
    simp

theorem banded_initial_gaplen_wrap32 (sr : Int) :
    (if sr < 0 then 250 else if sr > 250 then 0 else initial_gaplen wrap32 sr) =
      banded_gaplen0_spec sr := by
  unfold banded_gaplen0_spec
  split_ifs with h1 h2
  · rfl
  · rfl
  · rw [initial_gaplen_wrap32 _ (by omega) (by omega), gaplen0_spec_eq _ (by omega)]

theorem banded_gaplen0_spec_range (sr : Int) :
    0 ≤ banded_gaplen0_spec sr ∧ banded_gaplen0_spec sr ≤ 250 := by
  unfold banded_gaplen0_spec
  split_ifs with h1 h2
  · omega
  · omega
  · rw [gaplen0_spec_eq _ (by omega)]
    omega

/-- Without overflow the machine computation of the scaled gap length is
the unbounded one: this is the case for `|gap_factor| ≤ 8589934`. -/
theorem scaled_gaplen_wrap32 (cfg : ru_tts_conf_t) (t : ttscb_t)
    (h0 : -8589934 ≤ cfg.gap_factor) (h1 : cfg.gap_factor ≤ 8589934) :
    scaled_gaplen wrap32 cfg t = scaled_gaplen id cfg t := by
  rw [scaled_gaplen_eq, scaled_gaplen_eq, banded_initial_gaplen_wrap32,
    banded_initial_gaplen_id]
  obtain ⟨hg0, hg1⟩ := banded_gaplen0_spec_range cfg.speech_rate
  generalize banded_gaplen0_spec cfg.speech_rate = g at hg0 hg1
  have hp0 : -2147483500 ≤ g * cfg.gap_factor := by nlinarith
  have hp1 : g * cfg.gap_factor ≤ 2147483500 := by nlinarith
  simp only [c_div, c_add, c_mul, id]
  rw [wrap32_eq_self (g * cfg.gap_factor) (by omega) (by omega),
    wrap32_eq_self (g * cfg.gap_factor + 50) (by omega) (by omega)]
  apply wrap32_eq_self
  · rw [tdiv_hundred]
    split_ifs <;> omega
  · rw [tdiv_hundred]
    split_ifs <;> omega

/-- C4: for every `gap_factor` in `[0, 500]` and every `speech_rate`, in or
out of band, the `gaplen` derived with wrapping 32-bit arithmetic lies in
`[0, 250]` and equals the clamped value of the local `gaplen`, so the store
through `(uint8_t)` loses nothing; no intermediate result overflows, the
value being the one obtained with unbounded integers. -/
theorem C4_gaplen_range (cfg : ru_tts_conf_t) (ttscb : ttscb_t)
    (h0 : 0 ≤ cfg.gap_factor) (h1 : cfg.gap_factor ≤ 500) :
    0 ≤ (translate_params wrap32 cfg ttscb).gaplen ∧
    (translate_params wrap32 cfg ttscb).gaplen ≤ 250 ∧
    (translate_params wrap32 cfg ttscb).gaplen = clamp (scaled_gaplen wrap32 cfg ttscb) 0 250 ∧
    (translate_params wrap32 cfg ttscb).gaplen = (translate_params id cfg ttscb).gaplen := by
  have hs := scaled_gaplen_wrap32 cfg ttscb (by omega) (by omega)
  have hc := clamped_store_eq_clamp (scaled_gaplen wrap32 cfg ttscb)
  refine ⟨?_, ?_, ?_, ?_⟩
  · rw [translate_gaplen, hc]
    unfold clamp
    split_ifs <;> omega
  · rw [translate_gaplen, hc]
    unfold clamp
    split_ifs <;> omega
  · rw [translate_gaplen, hc]
  · rw [translate_gaplen, translate_gaplen, hs]

/-- Witness for C4 at the default configuration. -/
theorem C4_gaplen_range_witness :
    (0 : Int) ≤ ru_tts_config.gap_factor ∧ ru_tts_config.gap_factor ≤ 500 ∧
    0 ≤ (translate_params wrap32 ru_tts_config zero_ttscb).gaplen ∧
    (translate_params wrap32 ru_tts_config zero_ttscb).gaplen ≤ 250 ∧
    (translate_params wrap32 ru_tts_config zero_ttscb).gaplen =
      clamp (scaled_gaplen wrap32 ru_tts_config zero_ttscb) 0 250 ∧
    (translate_params wrap32 ru_tts_config zero_ttscb).gaplen =
      (translate_params id ru_tts_config zero_ttscb).gaplen :=
  ⟨by decide, by decide, C4_gaplen_range ru_tts_config zero_ttscb (by decide) (by decide)⟩

/-- C5: the 32-bit computation of `gaplen` does not always give the value
of the rule over unbounded integers.  With the default configuration and
`gap_factor = 20000000` the product `120 * 20000000` exceeds `2 ^ 31`; it
wraps to a negative number and the stored `gaplen` is 0, where the rule over
unbounded integers, and the same code over unbounded integers, give 250. -/
theorem C5_gaplen_overflow (ttscb : ttscb_t) :
    (translate_params wrap32 { ru_tts_config with gap_factor := 20000000 } ttscb).gaplen = 0 ∧
    (translate_params id { ru_tts_config with gap_factor := 20000000 } ttscb).gaplen = 250 ∧
    gaplen_spec 130 20000000 = 250 ∧
    scaled_gaplen wrap32 { ru_tts_config with gap_factor := 20000000 } ttscb = -18949672 := by
  refine ⟨?_, ?_, ?_, ?_⟩
  · rw [translate_gaplen, scaled_gaplen_eq]
    decide
  · rw [translate_gaplen, scaled_gaplen_eq]
    decide
  · decide
  · rw [scaled_gaplen_eq]
    decide

/-! ## Pitch and intonation -/

theorem mintone_id (cfg : ru_tts_conf_t) (t : ttscb_t) :
    (translate_params id cfg t).mintone =
      if cfg.voice_pitch < 0 then 50
      else if cfg.voice_pitch > 250 then 300
      else cfg.voice_pitch + 50 := by
  rw [translate_mintone]
  simp only [to_uint16, c_add, id]
  split_ifs <;> omega

theorem mintone_wrap32 (cfg : ru_tts_conf_t) (t : ttscb_t) :
    (translate_params wrap32 cfg t).mintone =
      if cfg.voice_pitch < 0 then 50
      else if cfg.voice_pitch > 250 then 300
      else cfg.voice_pitch + 50 := by
  rw [translate_mintone]
  simp only [to_uint16, c_add]
  split_ifs with h1 h2
  · rfl
  · rfl
  · rw [wrap32_eq_self _ (by omega) (by omega)]
    omega

theorem mintone_range (m vp : Int)
    (hm : m = if vp < 0 then 50 else if vp > 250 then 300 else vp + 50) :
    50 ≤ m ∧ m ≤ 300 := by
  subst hm
  split_ifs <;> omega

/-- C6: for every integer `voice_pitch` the derived `mintone` is 50 below 0,
300 above 250 and `voice_pitch + 50` otherwise, with unbounded integers and
with wrapping 32-bit arithmetic alike; it lies in `[50, 300]`, so the
`(uint16_t)` store changes nothing; at `voice_pitch` = -1, 0, 250, 251 it is
50, 50, 300, 300. -/
theorem C6_mintone (cfg : ru_tts_conf_t) (ttscb : ttscb_t) :
    ((translate_params id cfg ttscb).mintone =
        if cfg.voice_pitch < 0 then 50
        else if cfg.voice_pitch > 250 then 300
        else cfg.voice_pitch + 50) ∧
    (translate_params wrap32 cfg ttscb).mintone = (translate_params id cfg ttscb).mintone ∧
    50 ≤ (translate_params id cfg ttscb).mintone ∧
    (translate_params id cfg ttscb).mintone ≤ 300 ∧
    to_uint16 (translate_params id cfg ttscb).mintone = (translate_params id cfg ttscb).mintone ∧
    (translate_params id { cfg with voice_pitch := -1 } ttscb).mintone = 50 ∧
    (translate_params id { cfg with voice_pitch := 0 } ttscb).mintone = 50 ∧
    (translate_params id { cfg with voice_pitch := 250 } ttscb).mintone = 300 ∧
    (translate_params id { cfg with voice_pitch := 251 } ttscb).mintone = 300 := by
  obtain ⟨hlo, hhi⟩ := mintone_range _ _ (mintone_id cfg ttscb)
  refine ⟨mintone_id cfg ttscb, ?_, hlo, hhi, ?_, ?_, ?_, ?_, ?_⟩
  · rw [mintone_wrap32, mintone_id]
  · unfold to_uint16
    omega
  all_goals
    rw [mintone_id]
    simp

theorem maxtone_id (cfg : ru_tts_conf_t) (t : ttscb_t) :
    (translate_params id cfg t).maxtone =
      if cfg.intonation < 0 then (translate_params id cfg t).mintone
      else if cfg.intonation > 100 then 2 * (translate_params id cfg t).mintone
      else (translate_params id cfg t).mintone * (cfg.intonation + 100) / 100 := by
  obtain ⟨hlo, hhi⟩ := mintone_range _ _ (mintone_id cfg t)
  rw [translate_maxtone]
  generalize (translate_params id cfg t).mintone = m at hlo hhi
  simp only [c_shl, c_div, c_mul, c_add, id]
  split_ifs with h1 h2
  · rfl
  · omega
  · exact Int.tdiv_eq_ediv (Int.mul_nonneg (by omega) (by omega)) (by decide)

theorem maxtone_wrap32 (cfg : ru_tts_conf_t) (t : ttscb_t) :
    (translate_params wrap32 cfg t).maxtone = (translate_params id cfg t).maxtone := by
  obtain ⟨hlo, hhi⟩ := mintone_range _ _ (mintone_id cfg t)
  rw [maxtone_id, translate_maxtone, mintone_wrap32, ← mintone_id cfg t]
  generalize (translate_params id cfg t).mintone = m at hlo hhi
  simp only [c_shl, c_div, c_mul, c_add]
  split_ifs with h1 h2
  · rfl
  · rw [wrap32_eq_self _ (by omega) (by omega)]
    omega
  · have hp0 : 0 ≤ m * (cfg.intonation + 100) := Int.mul_nonneg (by omega) (by omega)
    have hp1 : m * (cfg.intonation + 100) ≤ 60000 := by nlinarith
    rw [wrap32_eq_self (cfg.intonation + 100) (by omega) (by omega),
      wrap32_eq_self (m * (cfg.intonation + 100)) (by omega) (by omega),
      Int.tdiv_eq_ediv hp0 (by decide)]
    apply wrap32_eq_self <;> omega

/-- C7: for every integer `intonation`, with `mintone` the value derived from
any `voice_pitch`, `maxtone` is `mintone` for `intonation < 0`,
`2 * mintone` for `intonation > 100` and
`mintone * (intonation + 100) / 100` with truncating division for
`0 <= intonation <= 100`; the 32-bit computation gives the same value. -/
theorem C7_maxtone (cfg : ru_tts_conf_t) (ttscb : ttscb_t) :
    ((translate_params id cfg ttscb).maxtone =
        if cfg.intonation < 0 then (translate_params id cfg ttscb).mintone
        else if cfg.intonation > 100 then 2 * (translate_params id cfg ttscb).mintone
        else Int.tdiv ((translate_params id cfg ttscb).mintone * (cfg.intonation + 100)) 100) ∧
    (translate_params wrap32 cfg ttscb).maxtone = (translate_params id cfg ttscb).maxtone := by
  obtain ⟨hlo, hhi⟩ := mintone_range _ _ (mintone_id cfg ttscb)
  refine ⟨?_, maxtone_wrap32 cfg ttscb⟩
  rw [maxtone_id]
  split_ifs with h1 h2
  · rfl
  · rfl
  · exact (Int.tdiv_eq_ediv (Int.mul_nonneg (by omega) (by omega)) (by decide)).symm

theorem maxtone_closed (cfg : ru_tts_conf_t) (t : ttscb_t) (i : Int) :
    (translate_params id { cfg with intonation := i } t).maxtone =
      if i < 0 then (translate_params id cfg t).mintone
      else if i > 100 then 2 * (translate_params id cfg t).mintone
      else (translate_params id cfg t).mintone * (i + 100) / 100 := by
  rw [maxtone_id, mintone_id, mintone_id]

theorem maxtone_mono_aux (m i1 i2 : Int) (hm : 0 ≤ m) (h : i1 ≤ i2) :
    (if i1 < 0 then m else if i1 > 100 then 2 * m else m * (i1 + 100) / 100) ≤
      (if i2 < 0 then m else if i2 > 100 then 2 * m else m * (i2 + 100) / 100) := by
  have hmul : ∀ i : Int, m * (i + 100) = m * i + 100 * m := fun i => by ring
  have hle : m * i1 ≤ m * i2 := Int.mul_le_mul_of_nonneg_left h hm
  have h100 : ∀ i : Int, i ≤ 100 → m * i ≤ 100 * m := fun i hi => by
    have := Int.mul_le_mul_of_nonneg_left hi hm
    omega
  have h0 : ∀ i : Int, 0 ≤ i → 0 ≤ m * i := fun i hi => Int.mul_nonneg hm hi
  rw [hmul i1, hmul i2]
  have p1 := h0 i1
  have p2 := h0 i2
  have q1 := h100 i1
  have q2 := h100 i2
  split_ifs <;> omega

/-- C8: for a fixed `voice_pitch`, hence a fixed `mintone`, `maxtone` is
non-decreasing in `intonation` over all integers, across the band edges at 0
and 100 included, with unbounded and with wrapping 32-bit arithmetic; it is
`mintone` at `intonation = -1` and `2 * mintone` at `intonation = 101`. -/
theorem C8_maxtone_monotone (cfg : ru_tts_conf_t) (ttscb : ttscb_t) (i1 i2 : Int)
    (h : i1 ≤ i2) :
    (translate_params id { cfg with intonation := i1 } ttscb).maxtone ≤
      (translate_params id { cfg with intonation := i2 } ttscb).maxtone ∧
    (translate_params wrap32 { cfg with intonation := i1 } ttscb).maxtone ≤
      (translate_params wrap32 { cfg with intonation := i2 } ttscb).maxtone ∧
    (translate_params id { cfg with intonation := -1 } ttscb).maxtone =
      (translate_params id cfg ttscb).mintone ∧
    (translate_params id { cfg with intonation := 101 } ttscb).maxtone =
      2 * (translate_params id cfg ttscb).mintone := by
  obtain ⟨hlo, _⟩ := mintone_range _ _ (mintone_id cfg ttscb)
  have hmono := maxtone_mono_aux (translate_params id cfg ttscb).mintone i1 i2 (by omega) h
  refine ⟨?_, ?_, ?_, ?_⟩
  · rw [maxtone_closed, maxtone_closed]
    exact hmono
  · rw [maxtone_wrap32, maxtone_wrap32, maxtone_closed, maxtone_closed]
    exact hmono
  · rw [maxtone_closed]
    simp
  · rw [maxtone_closed]
    simp

/-- Witness for C8: the default configuration, intonation 10 against 90. -/
theorem C8_maxtone_monotone_witness :
    (10 : Int) ≤ 90 ∧
    (translate_params id { ru_tts_config with intonation := 10 } zero_ttscb).maxtone ≤
      (translate_params id { ru_tts_config with intonation := 90 } zero_ttscb).maxtone ∧
    (translate_params wrap32 { ru_tts_config with intonation := 10 } zero_ttscb).maxtone ≤
      (translate_params wrap32 { ru_tts_config with intonation := 90 } zero_ttscb).maxtone ∧
    (translate_params id { ru_tts_config with intonation := -1 } zero_ttscb).maxtone =
      (translate_params id ru_tts_config zero_ttscb).mintone ∧
    (translate_params id { ru_tts_config with intonation := 101 } zero_ttscb).maxtone =
      2 * (translate_params id ru_tts_config zero_ttscb).mintone :=
  ⟨by decide, C8_maxtone_monotone ru_tts_config zero_ttscb 10 90 (by decide)⟩

/-! ## Voice selection -/

/-- C9: the voice stored in the control block is the female table exactly
when `alternative_voice` is nonzero and the male table otherwise, whatever
the integer model, the previous control block and the other four
configuration fields are. -/
theorem C9_voice (wrap : Int → Int) (cfg : ru_tts_conf_t) (ttscb : ttscb_t)
    (speech_rate voice_pitch gap_factor intonation : Int) :
    ((translate_params wrap cfg ttscb).voice = voice_ref.female ↔ cfg.alternative_voice ≠ 0) ∧
    ((translate_params wrap cfg ttscb).voice = voice_ref.male ↔ cfg.alternative_voice = 0) ∧
    (translate_params wrap
        { alternative_voice := cfg.alternative_voice
          speech_rate := speech_rate
          voice_pitch := voice_pitch
          gap_factor := gap_factor
          intonation := intonation } ttscb).voice = (translate_params wrap cfg ttscb).voice := by
  refine ⟨?_, ?_, ?_⟩
  · rw [translate_voice]
    split_ifs with h <;> simp [h]
  · rw [translate_voice]
    split_ifs with h
    · simp [h]
    · simp only [ne_eq, not_not] at h
      simp [h]
  · rw [translate_voice, translate_voice]

/-! ## The entry point -/

/-- When the scratch buffer was obtained, `process_text` runs on the control
block produced by the parameter translation and the buffer is released
last. -/
theorem ru_tts_transfer_some (M : Macros) (wrap : Int → Int) (env : Collaborators)
    (cfg : ru_tts_conf_t) (buf text wave_buffer : List Nat) (wave_buffer_size : Nat)
    (consumer : List Nat → Nat → Nat → Int) (user_data : Nat) (fr : Frame) :
    (ru_tts_transfer M wrap env cfg (some buf) text wave_buffer wave_buffer_size consumer
        user_data fr).trace =
      (call_process_text M env consumer user_data text
        { env.sink_setup fr.transcription_consumer buf M.TRANSCRIPTION_MAXLEN
            sink_callback.synth_function user_data_ref.ttscb with
          custom_reset := some reset_hook.transcription_init }
        { ttscb := translate_params wrap cfg
            { fr.ttscb with
              wave_consumer := env.sink_setup fr.ttscb.wave_consumer wave_buffer
                wave_buffer_size sink_callback.consumer (user_data_ref.user user_data) }
          trace := fr.trace }).2.trace ++ [Event.free] :=
  rfl

/-- C10: when the allocation of the scratch transcription buffer fails,
`ru_tts_transfer` returns with nothing done: the record of outside calls is
the one on entry (no call of `process_text`, `synth` or the audio consumer,
and no `free`), and the locals `ttscb` and `transcription_consumer` are as
they were on entry, no sink or control-block field having been written. -/
theorem C10_allocation_failure (M : Macros) (wrap : Int → Int) (env : Collaborators)
    (cfg : ru_tts_conf_t) (text wave_buffer : List Nat) (wave_buffer_size : Nat)
    (consumer : List Nat → Nat → Nat → Int) (user_data : Nat) (fr : Frame) :
    ru_tts_transfer M wrap env cfg none text wave_buffer wave_buffer_size consumer
        user_data fr = fr ∧
    (ru_tts_transfer M wrap env cfg none text wave_buffer wave_buffer_size consumer
        user_data fr).trace = fr.trace ∧
    (ru_tts_transfer M wrap env cfg none text wave_buffer wave_buffer_size consumer
        user_data fr).ttscb = fr.ttscb ∧
    (ru_tts_transfer M wrap env cfg none text wave_buffer wave_buffer_size consumer
        user_data fr).transcription_consumer = fr.transcription_consumer :=
  ⟨rfl, rfl, rfl, rfl⟩

/-! ## The transcription overflow handler -/

theorem synth_function_content (M : Macros) (env : Collaborators)
    (consumer : List Nat → Nat → Nat → Int) (user_data : Nat) (buffer : List Nat)
    (length : Nat) (m : Machine) (h : length > M.TRANSCRIPTION_START) :
    synth_function M env consumer user_data buffer length m =
      ((call_synth env consumer user_data (clause_boundary M buffer length m.ttscb).1
          { m with
            ttscb := (clause_boundary M buffer length m.ttscb).2 }).2.ttscb.wave_consumer.status,
        (call_synth env consumer user_data (clause_boundary M buffer length m.ttscb).1
          { m with ttscb := (clause_boundary M buffer length m.ttscb).2 }).1,
        (call_synth env consumer user_data (clause_boundary M buffer length m.ttscb).1
          { m with ttscb := (clause_boundary M buffer length m.ttscb).2 }).2) := by
  unfold synth_function
  rw [if_pos h]

theorem synth_function_empty (M : Macros) (env : Collaborators)
    (consumer : List Nat → Nat → Nat → Int) (user_data : Nat) (buffer : List Nat)
    (length : Nat) (m : Machine) (h : length ≤ M.TRANSCRIPTION_START) :
    synth_function M env consumer user_data buffer length m =
      (m.ttscb.wave_consumer.status, buffer, m) := by
  unfold synth_function
  rw [if_neg (by omega)]

theorem clause_boundary_done (M : Macros) (buffer : List Nat) (length : Nat) (t : ttscb_t)
    (h : t.transcription_state.flags &&& M.CLAUSE_DONE ≠ 0) :
    clause_boundary M buffer length t =
      (buffer,
        { t with
          transcription_state :=
            { flags := c_and_not t.transcription_state.flags M.CLAUSE_DONE
              clause_type := t.transcription_state.clause_type } }) := by
  unfold clause_boundary
  rw [if_pos h]

theorem clause_boundary_open (M : Macros) (buffer : List Nat) (length : Nat) (t : ttscb_t)
    (h : t.transcription_state.flags &&& M.CLAUSE_DONE = 0) :
    clause_boundary M buffer length t =
      (buffer.set length 44,
        { t with
          transcription_state :=
            { flags := t.transcription_state.flags
              clause_type := 0 } }) := by
  unfold clause_boundary
  rw [if_neg (by simpa using h)]

theorem testBit_c_and_not (a b i : Nat) :
    (c_and_not a b).testBit i = (a.testBit i && !b.testBit i) := by
  unfold c_and_not
  rw [Nat.testBit_xor, Nat.testBit_land]
  cases a.testBit i <;> cases b.testBit i <;> rfl

theorem c_and_not_land (a b : Nat) : c_and_not a b &&& b = 0 := by
  apply Nat.eq_of_testBit_eq
  intro i
  rw [Nat.testBit_land, testBit_c_and_not, Nat.zero_testBit]
  cases a.testBit i <;> cases b.testBit i <;> rfl

/-- After the clause boundary handling the flag is clear, whichever branch
was taken. -/
theorem clause_boundary_clears (M : Macros) (buffer : List Nat) (length : Nat) (t : ttscb_t) :
    (clause_boundary M buffer length t).2.transcription_state.flags &&& M.CLAUSE_DONE = 0 := by
  by_cases h : t.transcription_state.flags &&& M.CLAUSE_DONE = 0
  · rw [clause_boundary_open M buffer length t h]
    exact h
  · rw [clause_boundary_done M buffer length t h]
    exact c_and_not_land _ _

/-- C11: the status returned by `synth_function` is the `status` field of
the wave sink in the control block as `synth_function` leaves it, that is
after `synth` has run when the chunk has content and as found on entry
otherwise; so the value returned is 0 exactly when that status is 0, and a
nonzero status is passed on unchanged. -/
theorem C11_status_propagated (M : Macros) (env : Collaborators)
    (consumer : List Nat → Nat → Nat → Int) (user_data : Nat) (buffer : List Nat)
    (length : Nat) (m : Machine) :
    (synth_function M env consumer user_data buffer length m).1 =
      (synth_function M env consumer user_data buffer length m).2.2.ttscb.wave_consumer.status ∧
    ((synth_function M env consumer user_data buffer length m).1 = 0 ↔
      (synth_function M env consumer user_data buffer length m).2.2.ttscb.wave_consumer.status
        = 0) ∧
    (synth_function M env consumer user_data buffer length m).2.2 =
      (if length > M.TRANSCRIPTION_START then
        (call_synth env consumer user_data (clause_boundary M buffer length m.ttscb).1
          { m with ttscb := (clause_boundary M buffer length m.ttscb).2 }).2
      else m) := by
  by_cases h : length > M.TRANSCRIPTION_START
  · rw [synth_function_content M env consumer user_data buffer length m h, if_pos h]
    exact ⟨rfl, Iff.rfl, rfl⟩
  · rw [synth_function_empty M env consumer user_data buffer length m (by omega), if_neg h]
    exact ⟨rfl, Iff.rfl, rfl⟩

/-- C12: on a chunk with content (`length > TRANSCRIPTION_START`) and with
`CLAUSE_DONE` set, `synth_function` clears the bits of `CLAUSE_DONE` in the
flags and no other bit, leaves the buffer, `clause_type` and every other
field of the control block as they were, and then calls `synth` once, on
that unmodified chunk; the status, buffer and state it returns are those
left by that call. -/
theorem C12_clause_done_cleared (M : Macros) (env : Collaborators)
    (consumer : List Nat → Nat → Nat → Int) (user_data : Nat) (buffer : List Nat)
    (length : Nat) (m : Machine) (hlen : length > M.TRANSCRIPTION_START)
    (hdone : m.ttscb.transcription_state.flags &&& M.CLAUSE_DONE ≠ 0) :
    (clause_boundary M buffer length m.ttscb).1 = buffer ∧
    (∀ i : Nat,
      (clause_boundary M buffer length m.ttscb).2.transcription_state.flags.testBit i =
        (m.ttscb.transcription_state.flags.testBit i && !M.CLAUSE_DONE.testBit i)) ∧
    (clause_boundary M buffer length m.ttscb).2.transcription_state.flags &&& M.CLAUSE_DONE
      = 0 ∧
    (clause_boundary M buffer length m.ttscb).2.transcription_state.clause_type =
      m.ttscb.transcription_state.clause_type ∧
    (clause_boundary M buffer length m.ttscb).2 =
      { m.ttscb with
        transcription_state := (clause_boundary M buffer length m.ttscb).2.transcription_state } ∧
    synth_function M env consumer user_data buffer length m =
      ((env.synth (call_consumer consumer user_data) buffer
          { ttscb := (clause_boundary M buffer length m.ttscb).2
            trace := m.trace ++ [Event.synth buffer] }).2.ttscb.wave_consumer.status,
        env.synth (call_consumer consumer user_data) buffer
          { ttscb := (clause_boundary M buffer length m.ttscb).2
            trace := m.trace ++ [Event.synth buffer] }) := by
  have hcb := clause_boundary_done M buffer length m.ttscb hdone
  refine ⟨?_, ?_, ?_, ?_, ?_, ?_⟩
  · rw [hcb]
  · intro i
    rw [hcb]
    exact testBit_c_and_not _ _ i
  · exact clause_boundary_clears M buffer length m.ttscb
  · rw [hcb]
  · rw [hcb]
  · rw [synth_function_content M env consumer user_data buffer length m hlen, hcb]
    rfl

/-- Witness for C12: flags 5 with `CLAUSE_DONE = 4` on a five-byte chunk. -/
theorem C12_clause_done_cleared_witness :
    (5 > sample_macros.TRANSCRIPTION_START) ∧
    ((sample_machine 5 3).ttscb.transcription_state.flags &&& sample_macros.CLAUSE_DONE ≠ 0) ∧
    (clause_boundary sample_macros sample_buffer 5 (sample_machine 5 3).ttscb).1
      = sample_buffer ∧
    (clause_boundary sample_macros sample_buffer 5
      (sample_machine 5 3).ttscb).2.transcription_state = { flags := 1, clause_type := 3 } ∧
    synth_function sample_macros idle_collaborators silent_consumer 0 sample_buffer 5
        (sample_machine 5 3) =
      (0, sample_buffer,
        { ttscb := { zero_ttscb with transcription_state := { flags := 1, clause_type := 3 } }
          trace := [Event.synth sample_buffer] }) :=
  ⟨by decide, by decide,
    (C12_clause_done_cleared sample_macros idle_collaborators silent_consumer 0 sample_buffer 5
      (sample_machine 5 3) (by decide) (by decide)).1,
    by decide, by decide⟩

/-- C13: on a chunk with content and with `CLAUSE_DONE` clear, the chunk
handed to `synth` has the marker byte 44 at index `length` and the control
block has `clause_type = 0`; the buffer differs from the one received at
index `length` only (same size, every other byte as before), the flags and
the other fields of the control block are unchanged, and `synth` is called
once, on that chunk.  The byte at index `length` is the reserved headroom
byte, which the buffer must have. -/
theorem C13_marker_appended (M : Macros) (env : Collaborators)
    (consumer : List Nat → Nat → Nat → Int) (user_data : Nat) (buffer : List Nat)
    (length : Nat) (m : Machine) (hlen : length > M.TRANSCRIPTION_START)
    (hopen : m.ttscb.transcription_state.flags &&& M.CLAUSE_DONE = 0)
    (hroom : length < buffer.length) :
    (clause_boundary M buffer length m.ttscb).1[length]? = some 44 ∧
    (clause_boundary M buffer length m.ttscb).2.transcription_state.clause_type = 0 ∧
    (∀ i : Nat, i ≠ length → (clause_boundary M buffer length m.ttscb).1[i]? = buffer[i]?) ∧
    (clause_boundary M buffer length m.ttscb).1.length = buffer.length ∧
    (clause_boundary M buffer length m.ttscb).2.transcription_state.flags =
      m.ttscb.transcription_state.flags ∧
    (clause_boundary M buffer length m.ttscb).2 =
      { m.ttscb with
        transcription_state := (clause_boundary M buffer length m.ttscb).2.transcription_state } ∧
    synth_function M env consumer user_data buffer length m =
      ((env.synth (call_consumer consumer user_data) (buffer.set length 44)
          { ttscb := (clause_boundary M buffer length m.ttscb).2
            trace :=
              m.trace ++ [Event.synth (buffer.set length 44)] }).2.ttscb.wave_consumer.status,
        env.synth (call_consumer consumer user_data) (buffer.set length 44)
          { ttscb := (clause_boundary M buffer length m.ttscb).2
            trace := m.trace ++ [Event.synth (buffer.set length 44)] }) := by
  have hcb := clause_boundary_open M buffer length m.ttscb hopen
  refine ⟨?_, ?_, ?_, ?_, ?_, ?_, ?_⟩
  · rw [hcb]
    exact List.getElem?_set_self hroom
  · rw [hcb]
  · intro i hi
    rw [hcb]
    exact List.getElem?_set_ne (Ne.symm hi)
  · rw [hcb]
    exact List.length_set _ _ _
  · rw [hcb]
  · rw [hcb]
  · rw [synth_function_content M env consumer user_data buffer length m hlen, hcb]
    rfl

/-- Witness for C13: flags 1 with `CLAUSE_DONE = 4` on a five-byte chunk in
an eight-byte buffer. -/
theorem C13_marker_appended_witness :
    (5 > sample_macros.TRANSCRIPTION_START) ∧
    ((sample_machine 1 3).ttscb.transcription_state.flags &&& sample_macros.CLAUSE_DONE = 0) ∧
    (5 < sample_buffer.length) ∧
    (clause_boundary sample_macros sample_buffer 5 (sample_machine 1 3).ttscb).1[5]?
      = some 44 ∧
    (clause_boundary sample_macros sample_buffer 5 (sample_machine 1 3).ttscb).1
      = [43, 43, 7, 8, 9, 44, 43, 43] ∧
    synth_function sample_macros idle_collaborators silent_consumer 0 sample_buffer 5
        (sample_machine 1 3) =
      (0, [43, 43, 7, 8, 9, 44, 43, 43],
        { ttscb := { zero_ttscb with transcription_state := { flags := 1, clause_type := 0 } }
          trace := [Event.synth [43, 43, 7, 8, 9, 44, 43, 43]] }) :=
  ⟨by decide, by decide, by decide,
    (C13_marker_appended sample_macros idle_collaborators silent_consumer 0 sample_buffer 5
      (sample_machine 1 3) (by decide) (by decide) (by decide)).1,
    by decide, by decide⟩

/-- C14: on a chunk without content (`length <= TRANSCRIPTION_START`)
`synth_function` does not call `synth` (nothing is added to the record of
calls), leaves the buffer and the whole control block, flags and
`clause_type` included, as they were, and returns the status found in the
wave sink; nothing here depends on `CLAUSE_DONE`, so a set flag stays
set. -/
theorem C14_empty_flush (M : Macros) (env : Collaborators)
    (consumer : List Nat → Nat → Nat → Int) (user_data : Nat) (buffer : List Nat)
    (length : Nat) (m : Machine) (hlen : length ≤ M.TRANSCRIPTION_START) :
    synth_function M env consumer user_data buffer length m =
      (m.ttscb.wave_consumer.status, buffer, m) ∧
    (synth_function M env consumer user_data buffer length m).2.2.trace = m.trace ∧
    (synth_function M env consumer user_data buffer length m).2.1 = buffer ∧
    (synth_function M env consumer user_data buffer length m).2.2.ttscb.transcription_state =
      m.ttscb.transcription_state ∧
    ((synth_function M env consumer user_data buffer length
        m).2.2.ttscb.transcription_state.flags &&& M.CLAUSE_DONE =
      m.ttscb.transcription_state.flags &&& M.CLAUSE_DONE) := by
  rw [synth_function_empty M env consumer user_data buffer length m hlen]
  exact ⟨rfl, rfl, rfl, rfl, rfl⟩

/-- Witness for C14: a flush at the start offset with `CLAUSE_DONE` set. -/
theorem C14_empty_flush_witness :
    (2 ≤ sample_macros.TRANSCRIPTION_START) ∧
    synth_function sample_macros idle_collaborators silent_consumer 0 sample_buffer 2
        (sample_machine 5 3) = (0, sample_buffer, sample_machine 5 3) :=
  ⟨by decide,
    (C14_empty_flush sample_macros idle_collaborators silent_consumer 0 sample_buffer 2
      (sample_machine 5 3) (by decide)).1⟩

/-- C15: on a chunk with content the `CLAUSE_DONE` flag is clear in the
control block that `synth_function` hands to `synth`, whether it was set on
entry or not.  Hence, when neither `synth` nor what the producer does
between two flushes sets the flag, the second of two consecutive flushes
with content finds it clear: its chunk gets the marker byte 44 at index
`length` and `clause_type` is 0 when `synth` is called. -/
theorem C15_clause_boundary_invariant (M : Macros) (env : Collaborators)
    (consumer : List Nat → Nat → Nat → Int) (user_data : Nat)
    (buffer1 buffer2 : List Nat) (length1 length2 : Nat) (m : Machine)
    (producer : Machine → Machine)
    (hlen1 : length1 > M.TRANSCRIPTION_START) (hlen2 : length2 > M.TRANSCRIPTION_START)
    (hroom : length2 < buffer2.length)
    (hsynth : ∀ (b : List Nat) (s : Machine),
      s.ttscb.transcription_state.flags &&& M.CLAUSE_DONE = 0 →
      (env.synth (call_consumer consumer user_data) b s).2.ttscb.transcription_state.flags
        &&& M.CLAUSE_DONE = 0)
    (hproducer : ∀ s : Machine,
      s.ttscb.transcription_state.flags &&& M.CLAUSE_DONE = 0 →
      (producer s).ttscb.transcription_state.flags &&& M.CLAUSE_DONE = 0) :
    (clause_boundary M buffer1 length1 m.ttscb).2.transcription_state.flags
      &&& M.CLAUSE_DONE = 0 ∧
    (producer (synth_function M env consumer user_data buffer1 length1
      m).2.2).ttscb.transcription_state.flags &&& M.CLAUSE_DONE = 0 ∧
    (clause_boundary M buffer2 length2
      (producer (synth_function M env consumer user_data buffer1 length1 m).2.2).ttscb).1
      = buffer2.set length2 44 ∧
    (clause_boundary M buffer2 length2
      (producer (synth_function M env consumer user_data buffer1 length1
        m).2.2).ttscb).1[length2]? = some 44 ∧
    (clause_boundary M buffer2 length2
      (producer (synth_function M env consumer user_data buffer1 length1
        m).2.2).ttscb).2.transcription_state.clause_type = 0 ∧
    (synth_function M env consumer user_data buffer2 length2
        (producer (synth_function M env consumer user_data buffer1 length1 m).2.2)).2.2 =
      (env.synth (call_consumer consumer user_data) (buffer2.set length2 44)
        { ttscb := (clause_boundary M buffer2 length2
            (producer (synth_function M env consumer user_data buffer1 length1 m).2.2).ttscb).2
          trace := (producer (synth_function M env consumer user_data buffer1 length1
            m).2.2).trace ++ [Event.synth (buffer2.set length2 44)] }).2 := by
  have hfirst := clause_boundary_clears M buffer1 length1 m.ttscb
  have hafter : (producer (synth_function M env consumer user_data buffer1 length1
      m).2.2).ttscb.transcription_state.flags &&& M.CLAUSE_DONE = 0 := by
    apply hproducer
    rw [synth_function_content M env consumer user_data buffer1 length1 m hlen1]
    exact hsynth _ _ hfirst
  have hcb := clause_boundary_open M buffer2 length2 _ hafter
  refine ⟨hfirst, hafter, ?_, ?_, ?_, ?_⟩
  · rw [hcb]
  · rw [hcb]
    exact List.getElem?_set_self hroom
  · rw [hcb]
  · rw [synth_function_content M env consumer user_data buffer2 length2 _ hlen2, hcb]
    rfl

/-- Witness for C15: two flushes of five bytes, the first entered with
`CLAUSE_DONE` set, with collaborators that leave the flags alone. -/
theorem C15_clause_boundary_invariant_witness :
    (5 > sample_macros.TRANSCRIPTION_START) ∧ (5 < sample_buffer.length) ∧
    (clause_boundary sample_macros sample_buffer 5
      (id (synth_function sample_macros idle_collaborators silent_consumer 0 sample_buffer 5
        (sample_machine 5 3)).2.2).ttscb).1 = sample_buffer.set 5 44 ∧
    (synth_function sample_macros idle_collaborators silent_consumer 0 sample_buffer 5
      (synth_function sample_macros idle_collaborators silent_consumer 0 sample_buffer 5
        (sample_machine 5 3)).2.2) =
      (0, [43, 43, 7, 8, 9, 44, 43, 43],
        { ttscb := { zero_ttscb with transcription_state := { flags := 1, clause_type := 0 } }
          trace := [Event.synth sample_buffer, Event.synth [43, 43, 7, 8, 9, 44, 43, 43]] }) :=
  ⟨by decide, by decide,
    (C15_clause_boundary_invariant sample_macros idle_collaborators silent_consumer 0
      sample_buffer sample_buffer 5 5 (sample_machine 5 3) id (by decide) (by decide)
      (by decide) (fun _ _ h => h) (fun _ h => h)).2.2.1,
    by decide⟩

/-! ## The reset hook of the transcription sink -/

theorem memset_take (buffer : List Nat) (c n : Nat) :
    (memset buffer c n).take n = List.replicate n c := by
  unfold memset
  simp

theorem memset_drop (buffer : List Nat) (c n : Nat) :
    (memset buffer c n).drop n = buffer.drop n := by
  unfold memset
  simp

theorem memset_getElem (buffer : List Nat) (c n i : Nat) (h : i < n) :
    (memset buffer c n)[i]? = some c := by
  unfold memset
  rw [List.getElem?_append_left (by simpa using h)]
  simp [h]

theorem memset_memset (buffer : List Nat) (c n : Nat) :
    memset (memset buffer c n) c n = memset buffer c n := by
  unfold memset
  simp

/-- C16: `transcription_init` leaves each of the first
`TRANSCRIPTION_BUFFER_SIZE` bytes of the buffer equal to 43, whatever the
buffer held (a marker 44 left by a flush included), and the offset equal to
`TRANSCRIPTION_START`, whatever it was; the bytes beyond, the capacity, the
status, the callback, the user data and the reset hook are unchanged; a
buffer of exactly `TRANSCRIPTION_BUFFER_SIZE` bytes becomes all 43; and
running it twice is the same as running it once. -/
theorem C16_transcription_init (M : Macros) (consumer : sink_t) :
    (transcription_init M consumer).buffer.take M.TRANSCRIPTION_BUFFER_SIZE =
      List.replicate M.TRANSCRIPTION_BUFFER_SIZE 43 ∧
    (∀ i : Nat, i < M.TRANSCRIPTION_BUFFER_SIZE →
      (transcription_init M consumer).buffer[i]? = some 43) ∧
    (∀ i : Nat, i < M.TRANSCRIPTION_BUFFER_SIZE →
      (transcription_init M { consumer with buffer := consumer.buffer.set i 44 }).buffer[i]?
        = some 43) ∧
    (consumer.buffer.length = M.TRANSCRIPTION_BUFFER_SIZE →
      (transcription_init M consumer).buffer = List.replicate M.TRANSCRIPTION_BUFFER_SIZE 43) ∧
    (transcription_init M consumer).buffer.drop M.TRANSCRIPTION_BUFFER_SIZE =
      consumer.buffer.drop M.TRANSCRIPTION_BUFFER_SIZE ∧
    (transcription_init M consumer).buffer_offset = M.TRANSCRIPTION_START ∧
    (transcription_init M consumer).buffer_size = consumer.buffer_size ∧
    (transcription_init M consumer).status = consumer.status ∧
    (transcription_init M consumer).function = consumer.function ∧
    (transcription_init M consumer).user_data = consumer.user_data ∧
    (transcription_init M consumer).custom_reset = consumer.custom_reset ∧
    transcription_init M (transcription_init M consumer) = transcription_init M consumer := by
  refine ⟨memset_take _ _ _, fun i hi => memset_getElem _ _ _ i hi,
    fun i hi => memset_getElem _ _ _ i hi, ?_, memset_drop _ _ _, rfl, rfl, rfl, rfl, rfl, rfl,
    ?_⟩
  · intro hlen
    show memset consumer.buffer 43 M.TRANSCRIPTION_BUFFER_SIZE = _
    unfold memset
    rw [← hlen]
    simp
  · show ({ transcription_init M consumer with
        buffer := memset (transcription_init M consumer).buffer 43 M.TRANSCRIPTION_BUFFER_SIZE
        buffer_offset := M.TRANSCRIPTION_START } : sink_t) = transcription_init M consumer
    unfold transcription_init
    simp only [memset_memset]

/-! ## The default configuration -/

/-- C17: the default configuration is `{alternative_voice = 0,
speech_rate = 130, voice_pitch = 50, gap_factor = 80, intonation = 80}`, and
the parameter translation applied to it, with 32-bit or with unbounded
integers and from any previous control block, gives the male voice,
`rate_factor = 120`, `stretch = 4`, `gaplen = 96`, `mintone = 100` and
`maxtone = 180`; so does a whole run of `ru_tts_transfer` with collaborators
that leave the control block alone. -/
theorem C17_default_configuration (ttscb : ttscb_t) :
    ru_tts_config =
      { alternative_voice := 0
        speech_rate := 130
        voice_pitch := 50
        gap_factor := 80
        intonation := 80 } ∧
    ((translate_params wrap32 ru_tts_config ttscb).voice = voice_ref.male ∧
      (translate_params wrap32 ru_tts_config ttscb).rate_factor = 120 ∧
      (translate_params wrap32 ru_tts_config ttscb).stretch = 4 ∧
      (translate_params wrap32 ru_tts_config ttscb).gaplen = 96 ∧
      (translate_params wrap32 ru_tts_config ttscb).mintone = 100 ∧
      (translate_params wrap32 ru_tts_config ttscb).maxtone = 180) ∧
    ((translate_params id ru_tts_config ttscb).voice = voice_ref.male ∧
      (translate_params id ru_tts_config ttscb).rate_factor = 120 ∧
      (translate_params id ru_tts_config ttscb).stretch = 4 ∧
      (translate_params id ru_tts_config ttscb).gaplen = 96 ∧
      (translate_params id ru_tts_config ttscb).mintone = 100 ∧
      (translate_params id ru_tts_config ttscb).maxtone = 180) ∧
    (ru_tts_transfer sample_macros wrap32 idle_collaborators ru_tts_config
        (some sample_buffer) [] [] 0 silent_consumer 0 zero_frame).ttscb =
      { zero_ttscb with
        voice := voice_ref.male
        rate_factor := 120
        stretch := 4
        gaplen := 96
        mintone := 100
        maxtone := 180 } := by
  refine ⟨rfl, ⟨?_, ?_, ?_, ?_, ?_, ?_⟩, ⟨?_, ?_, ?_, ?_, ?_, ?_⟩, by decide⟩
  · rw [translate_voice]; decide
  · rw [translate_rate_factor]; decide
  · rw [translate_stretch]; decide
  · rw [translate_gaplen, scaled_gaplen_eq]; decide
  · rw [translate_mintone]; decide
  · rw [translate_maxtone, translate_mintone]; decide
  · rw [translate_voice]; decide
  · rw [translate_rate_factor]; decide
  · rw [translate_stretch]; decide
  · rw [translate_gaplen, scaled_gaplen_eq]; decide
  · rw [translate_mintone]; decide
  · rw [translate_maxtone, translate_mintone]; decide

/-! ## Well-formedness of the derived control block -/

theorem rate_factor_id (cfg : ru_tts_conf_t) (t : ttscb_t) :
    (translate_params id cfg t).rate_factor =
      if cfg.speech_rate < 0 then 125
      else if cfg.speech_rate > 250 then 0
      else if cfg.speech_rate < 125 then 125 - cfg.speech_rate
      else 250 - cfg.speech_rate := by
  rw [translate_rate_factor]
  rfl

theorem rate_factor_wrap32 (cfg : ru_tts_conf_t) (t : ttscb_t) :
    (translate_params wrap32 cfg t).rate_factor = (translate_params id cfg t).rate_factor := by
  rw [rate_factor_id, translate_rate_factor]
  simp only [c_sub]
  split_ifs with h1 h2 h3
  · rfl
  · rfl
  · rw [wrap32_eq_self _ (by omega) (by omega)]
  · rw [wrap32_eq_self _ (by omega) (by omega)]

/-- C18: for every configuration the derived control block is well-formed:
`rate_factor` is in `[0, 125]`, `stretch` is 10 when `speech_rate < 125` and
4 otherwise, `mintone <= maxtone <= 2 * mintone <= 600`, so `maxtone` is
below `2 ^ 16`, and on the branch that multiplies (`0 <= intonation <= 100`)
the product `mintone * (intonation + 100)` is at most 60000.  The four fields
are the same with 32-bit and with unbounded integers. -/
theorem C18_control_block_well_formed (cfg : ru_tts_conf_t) (ttscb : ttscb_t) :
    0 ≤ (translate_params id cfg ttscb).rate_factor ∧
    (translate_params id cfg ttscb).rate_factor ≤ 125 ∧
    (translate_params id cfg ttscb).stretch = (if cfg.speech_rate < 125 then 10 else 4) ∧
    (translate_params id cfg ttscb).mintone ≤ (translate_params id cfg ttscb).maxtone ∧
    (translate_params id cfg ttscb).maxtone ≤ 2 * (translate_params id cfg ttscb).mintone ∧
    2 * (translate_params id cfg ttscb).mintone ≤ 600 ∧
    (translate_params id cfg ttscb).maxtone < 65536 ∧
    to_uint16 (translate_params id cfg ttscb).maxtone = (translate_params id cfg ttscb).maxtone ∧
    (0 ≤ cfg.intonation → cfg.intonation ≤ 100 →
      0 ≤ (translate_params id cfg ttscb).mintone * (cfg.intonation + 100) ∧
      (translate_params id cfg ttscb).mintone * (cfg.intonation + 100) ≤ 60000) ∧
    (translate_params wrap32 cfg ttscb).rate_factor =
      (translate_params id cfg ttscb).rate_factor ∧
    (translate_params wrap32 cfg ttscb).stretch = (translate_params id cfg ttscb).stretch ∧
    (translate_params wrap32 cfg ttscb).mintone = (translate_params id cfg ttscb).mintone ∧
    (translate_params wrap32 cfg ttscb).maxtone = (translate_params id cfg ttscb).maxtone := by
  obtain ⟨hlo, hhi⟩ := mintone_range _ _ (mintone_id cfg ttscb)
  have hmax := maxtone_id cfg ttscb
  have hrf := rate_factor_id cfg ttscb
  have hmw : (translate_params wrap32 cfg ttscb).mintone =
      (translate_params id cfg ttscb).mintone := by
    rw [mintone_wrap32, mintone_id]
  generalize (translate_params id cfg ttscb).mintone = m at hlo hhi hmax hmw
  have hprod : 0 ≤ cfg.intonation → cfg.intonation ≤ 100 →
      0 ≤ m * (cfg.intonation + 100) ∧ m * (cfg.intonation + 100) ≤ 60000 := by
    intro h0 h1
    constructor
    · exact Int.mul_nonneg (by omega) (by omega)
    · nlinarith
  have hlow : 0 ≤ cfg.intonation → cfg.intonation ≤ 100 →
      100 * m ≤ m * (cfg.intonation + 100) ∧ m * (cfg.intonation + 100) ≤ 200 * m := by
    intro h0 h1
    constructor <;> nlinarith
  have hmaxlo : m ≤ (translate_params id cfg ttscb).maxtone := by
    rw [hmax]
    split_ifs with h1 h2
    · omega
    · omega
    · have := hlow (by omega) (by omega)
      omega
  have hmaxhi : (translate_params id cfg ttscb).maxtone ≤ 2 * m := by
    rw [hmax]
    split_ifs with h1 h2
    · omega
    · omega
    · have := hlow (by omega) (by omega)
      omega
  refine ⟨?_, ?_, ?_, hmaxlo, hmaxhi, by omega, by omega, ?_, hprod, rate_factor_wrap32 _ _,
    ?_, hmw, maxtone_wrap32 _ _⟩
  · rw [hrf]
    split_ifs <;> omega
  · rw [hrf]
    split_ifs <;> omega
  · rw [translate_stretch]
    split_ifs <;> first | rfl | omega
  · unfold to_uint16
    omega
  · rw [translate_stretch, translate_stretch]

/-! ## Monotonicity and rounding of the gap length -/

theorem gaplen_id_eq_spec (cfg : ru_tts_conf_t) (t : ttscb_t) :
    (translate_params id cfg t).gaplen = gaplen_spec cfg.speech_rate cfg.gap_factor := by
  rw [translate_gaplen, clamped_store_eq_clamp, scaled_gaplen_eq, banded_initial_gaplen_id]
  rfl

theorem scaled_gaplen_id_eq (cfg : ru_tts_conf_t) (t : ttscb_t) :
    scaled_gaplen id cfg t =
      Int.tdiv (banded_gaplen0_spec cfg.speech_rate * cfg.gap_factor + 50) 100 := by
  rw [scaled_gaplen_eq, banded_initial_gaplen_id]
  rfl

theorem banded_gaplen0_spec_eq_clamp (sr : Int) :
    banded_gaplen0_spec sr = clamp (250 - sr) 0 250 := by
  unfold banded_gaplen0_spec
  split_ifs with h1 h2
  · unfold clamp
    split_ifs <;> omega
  · unfold clamp
    split_ifs <;> omega
  · rw [gaplen0_spec_eq _ (by omega)]
    unfold clamp
    split_ifs <;> omega

theorem banded_gaplen0_spec_antitone (s1 s2 : Int) (h : s1 ≤ s2) :
    banded_gaplen0_spec s2 ≤ banded_gaplen0_spec s1 := by
  rw [banded_gaplen0_spec_eq_clamp, banded_gaplen0_spec_eq_clamp]
  unfold clamp
  split_ifs <;> omega

theorem tdiv_hundred_mono (x y : Int) (h : x ≤ y) : Int.tdiv x 100 ≤ Int.tdiv y 100 := by
  rw [tdiv_hundred, tdiv_hundred]
  split_ifs <;> omega

theorem clamp_mono (x y : Int) (h : x ≤ y) : clamp x 0 250 ≤ clamp y 0 250 := by
  unfold clamp
  split_ifs <;> omega

theorem gaplen_spec_mono_gap (sr g1 g2 : Int) (h : g1 ≤ g2) :
    gaplen_spec sr g1 ≤ gaplen_spec sr g2 := by
  unfold gaplen_spec
  apply clamp_mono
  apply tdiv_hundred_mono
  have := Int.mul_le_mul_of_nonneg_left h (banded_gaplen0_spec_range sr).1
  omega

theorem gaplen_spec_anti_rate (s1 s2 g : Int) (h : s1 ≤ s2) (hg : 0 ≤ g) :
    gaplen_spec s2 g ≤ gaplen_spec s1 g := by
  unfold gaplen_spec
  apply clamp_mono
  apply tdiv_hundred_mono
  have := Int.mul_le_mul_of_nonneg_right (banded_gaplen0_spec_antitone s1 s2 h) hg
  omega

theorem gaplen_spec_nonpos (sr g : Int) (hg : g ≤ 0) : gaplen_spec sr g = 0 := by
  unfold gaplen_spec
  have h0 := (banded_gaplen0_spec_range sr).1
  have hp : banded_gaplen0_spec sr * g ≤ 0 := Int.mul_nonpos_of_nonneg_of_nonpos h0 hg
  generalize banded_gaplen0_spec sr * g = p at hp
  rw [tdiv_hundred]
  unfold clamp
  split_ifs <;> omega

theorem gaplen_spec_hundred (sr : Int) : gaplen_spec sr 100 = clamp (250 - sr) 0 250 := by
  unfold gaplen_spec
  rw [← banded_gaplen0_spec_eq_clamp]
  obtain ⟨h0, h1⟩ := banded_gaplen0_spec_range sr
  generalize banded_gaplen0_spec sr = g0 at h0 h1
  rw [tdiv_hundred]
  unfold clamp
  split_ifs <;> omega

/-- C19: with unbounded integers the derived `gaplen` is non-decreasing in
`gap_factor` for a fixed `speech_rate`, over all integers, and for a fixed
`gap_factor >= 0` it is non-increasing in `speech_rate`, over all integers
and so across the band edges at 0 and 250; it is 0 whenever
`gap_factor <= 0`. -/
theorem C19_gaplen_monotone (cfg : ru_tts_conf_t) (ttscb : ttscb_t) (g1 g2 s1 s2 : Int)
    (hg : g1 ≤ g2) (hs : s1 ≤ s2) (hpos : 0 ≤ cfg.gap_factor) :
    (translate_params id { cfg with gap_factor := g1 } ttscb).gaplen ≤
      (translate_params id { cfg with gap_factor := g2 } ttscb).gaplen ∧
    (translate_params id { cfg with speech_rate := s2 } ttscb).gaplen ≤
      (translate_params id { cfg with speech_rate := s1 } ttscb).gaplen ∧
    (∀ g : Int, g ≤ 0 →
      (translate_params id { cfg with gap_factor := g } ttscb).gaplen = 0) := by
  refine ⟨?_, ?_, ?_⟩
  · rw [gaplen_id_eq_spec, gaplen_id_eq_spec]
    exact gaplen_spec_mono_gap _ _ _ hg
  · rw [gaplen_id_eq_spec, gaplen_id_eq_spec]
    exact gaplen_spec_anti_rate _ _ _ hs hpos
  · intro g h
    rw [gaplen_id_eq_spec]
    exact gaplen_spec_nonpos _ _ h

/-- Witness for C19: gap factors 80 and 120, speech rates -5 and 260. -/
theorem C19_gaplen_monotone_witness :
    ((80 : Int) ≤ 120) ∧ ((-5 : Int) ≤ 260) ∧ (0 ≤ ru_tts_config.gap_factor) ∧
    (translate_params id { ru_tts_config with gap_factor := 80 } zero_ttscb).gaplen ≤
      (translate_params id { ru_tts_config with gap_factor := 120 } zero_ttscb).gaplen ∧
    (translate_params id { ru_tts_config with speech_rate := 260 } zero_ttscb).gaplen ≤
      (translate_params id { ru_tts_config with speech_rate := -5 } zero_ttscb).gaplen :=
  ⟨by decide, by decide, by decide,
    (C19_gaplen_monotone ru_tts_config zero_ttscb 80 120 (-5) 260 (by decide) (by decide)
      (by decide)).1,
    (C19_gaplen_monotone ru_tts_config zero_ttscb 80 120 (-5) 260 (by decide) (by decide)
      (by decide)).2.1⟩

theorem rounding_bounds (cfg : ru_tts_conf_t) (t : ttscb_t)
    (hpos : 0 ≤ cfg.gap_factor) (hcap : scaled_gaplen id cfg t ≤ 250) :
    -50 ≤ clamp (250 - cfg.speech_rate) 0 250 * cfg.gap_factor -
        100 * (translate_params id cfg t).gaplen ∧
    clamp (250 - cfg.speech_rate) 0 250 * cfg.gap_factor -
        100 * (translate_params id cfg t).gaplen < 50 := by
  rw [scaled_gaplen_id_eq] at hcap
  rw [gaplen_id_eq_spec]
  unfold gaplen_spec
  rw [← banded_gaplen0_spec_eq_clamp]
  obtain ⟨h0, h1⟩ := banded_gaplen0_spec_range cfg.speech_rate
  generalize banded_gaplen0_spec cfg.speech_rate = g0 at hcap h0 h1
  have hp : 0 ≤ g0 * cfg.gap_factor := Int.mul_nonneg h0 hpos
  generalize g0 * cfg.gap_factor = p at hcap hp
  rw [tdiv_hundred] at hcap
  rw [tdiv_hundred]
  unfold clamp
  constructor
  · split_ifs at hcap ⊢ <;> omega
  · split_ifs at hcap ⊢ <;> omega

/-- C20, as stated, fails: with `speech_rate = 200` (so `g0 = 50`) and
`gap_factor = 1` the result is not capped, `gaplen` is 1 (the half
`50 / 100` is rounded up) and `g0 * gap_factor - 100 * gaplen` is -50,
which is not above -50. -/
theorem C20_rounding_counterexample :
    (0 : Int) ≤ 1 ∧
    scaled_gaplen id { ru_tts_config with speech_rate := 200, gap_factor := 1 } zero_ttscb
      ≤ 250 ∧
    (translate_params id { ru_tts_config with speech_rate := 200, gap_factor := 1 }
      zero_ttscb).gaplen = 1 ∧
    clamp (250 - 200) 0 250 = 50 ∧
    ¬ (-50 < clamp (250 - 200) 0 250 * 1 - 100 *
          (translate_params id { ru_tts_config with speech_rate := 200, gap_factor := 1 }
            zero_ttscb).gaplen ∧
        clamp (250 - 200) 0 250 * 1 - 100 *
          (translate_params id { ru_tts_config with speech_rate := 200, gap_factor := 1 }
            zero_ttscb).gaplen ≤ 50) := by
  decide

/-- In the range without overflow, `|gap_factor| ≤ 8589934`, the 32-bit
computation stores the `gaplen` of the unbounded one. -/
theorem gaplen_wrap32_eq_id (cfg : ru_tts_conf_t) (t : ttscb_t)
    (h0 : -8589934 ≤ cfg.gap_factor) (h1 : cfg.gap_factor ≤ 8589934) :
    (translate_params wrap32 cfg t).gaplen = (translate_params id cfg t).gaplen := by
  rw [translate_gaplen, translate_gaplen, scaled_gaplen_wrap32 cfg t h0 h1]

/-- Beyond that range the rounding bounds are lost with 32-bit integers: for
the default configuration with `gap_factor = 178957054` the product
`120 * 178957054` wraps to 10000, the local `gaplen` is 100 (not capped),
100 is stored, and `g0 * gap_factor - 100 * gaplen` is 21474836480. -/
theorem rounding_lost_on_overflow (ttscb : ttscb_t) :
    scaled_gaplen wrap32 { ru_tts_config with gap_factor := 178957054 } ttscb = 100 ∧
    (translate_params wrap32 { ru_tts_config with gap_factor := 178957054 } ttscb).gaplen
      = 100 ∧
    clamp (250 - 130) 0 250 * 178957054 - 100 * 100 = 21474836480 := by
  refine ⟨?_, ?_, ?_⟩
  · rw [scaled_gaplen_eq]
    decide
  · rw [translate_gaplen, scaled_gaplen_eq]
    decide
  · decide

/-- C20, amended: for every `speech_rate` and every `gap_factor >= 0` for
which the result is not capped at 250 (the local `gaplen` does not exceed
250), with integers treated as unbounded `gaplen` is the integer nearest to
`g0 * gap_factor / 100` with halves rounded up, that is
`-50 <= g0 * gap_factor - 100 * gaplen < 50`, where
`g0 = clamp(250 - speech_rate, 0, 250)`.  With 32-bit integers and
`gap_factor <= 8589934`, where the product of line 114 cannot overflow, the
local `gaplen` and the stored `gaplen` are the unbounded ones, so the same
bounds hold for the code as compiled.  In both models `gap_factor = 100`
gives `gaplen = g0` exactly. -/
theorem C20_rounding (cfg : ru_tts_conf_t) (ttscb : ttscb_t)
    (hpos : 0 ≤ cfg.gap_factor) (hcap : scaled_gaplen id cfg ttscb ≤ 250) :
    -50 ≤ clamp (250 - cfg.speech_rate) 0 250 * cfg.gap_factor -
        100 * (translate_params id cfg ttscb).gaplen ∧
    clamp (250 - cfg.speech_rate) 0 250 * cfg.gap_factor -
        100 * (translate_params id cfg ttscb).gaplen < 50 ∧
    (translate_params id { cfg with gap_factor := 100 } ttscb).gaplen =
      clamp (250 - cfg.speech_rate) 0 250 ∧
    (cfg.gap_factor ≤ 8589934 →
      scaled_gaplen wrap32 cfg ttscb = scaled_gaplen id cfg ttscb ∧
      scaled_gaplen wrap32 cfg ttscb ≤ 250 ∧
      (translate_params wrap32 cfg ttscb).gaplen = (translate_params id cfg ttscb).gaplen ∧
      -50 ≤ clamp (250 - cfg.speech_rate) 0 250 * cfg.gap_factor -
          100 * (translate_params wrap32 cfg ttscb).gaplen ∧
      clamp (250 - cfg.speech_rate) 0 250 * cfg.gap_factor -
          100 * (translate_params wrap32 cfg ttscb).gaplen < 50) ∧
    (translate_params wrap32 { cfg with gap_factor := 100 } ttscb).gaplen =
      clamp (250 - cfg.speech_rate) 0 250 := by
  have hid100 : (translate_params id { cfg with gap_factor := 100 } ttscb).gaplen =
      clamp (250 - cfg.speech_rate) 0 250 := by
    rw [gaplen_id_eq_spec]
    exact gaplen_spec_hundred _
  refine ⟨?_, ?_, hid100, ?_, ?_⟩
  · exact (rounding_bounds cfg ttscb hpos hcap).1
  · exact (rounding_bounds cfg ttscb hpos hcap).2
  · intro hrange
    have hs := scaled_gaplen_wrap32 cfg ttscb (by omega) hrange
    have hg := gaplen_wrap32_eq_id cfg ttscb (by omega) hrange
    refine ⟨hs, ?_, hg, ?_, ?_⟩
    · rw [hs]
      exact hcap
    · rw [hg]
      exact (rounding_bounds cfg ttscb hpos hcap).1
    · rw [hg]
      exact (rounding_bounds cfg ttscb hpos hcap).2
  · have h0 : (-8589934 : Int) ≤ ({ cfg with gap_factor := 100 } : ru_tts_conf_t).gap_factor :=
      show (-8589934 : Int) ≤ 100 by decide
    have h1 : ({ cfg with gap_factor := 100 } : ru_tts_conf_t).gap_factor ≤ 8589934 :=
      show (100 : Int) ≤ 8589934 by decide
    rw [gaplen_wrap32_eq_id { cfg with gap_factor := 100 } ttscb h0 h1]
    exact hid100

/-- Witness for C20: the default configuration (`g0 = 120`, `gap_factor = 80`,
`gaplen = 96`), in both integer models. -/
theorem C20_rounding_witness :
    (0 ≤ ru_tts_config.gap_factor) ∧ (scaled_gaplen id ru_tts_config zero_ttscb ≤ 250) ∧
    -50 ≤ clamp (250 - ru_tts_config.speech_rate) 0 250 * ru_tts_config.gap_factor -
        100 * (translate_params id ru_tts_config zero_ttscb).gaplen ∧
    clamp (250 - ru_tts_config.speech_rate) 0 250 * ru_tts_config.gap_factor -
        100 * (translate_params id ru_tts_config zero_ttscb).gaplen < 50 ∧
    (translate_params id { ru_tts_config with gap_factor := 100 } zero_ttscb).gaplen =
      clamp (250 - ru_tts_config.speech_rate) 0 250 ∧
    (ru_tts_config.gap_factor ≤ 8589934) ∧
    (scaled_gaplen wrap32 ru_tts_config zero_ttscb = scaled_gaplen id ru_tts_config zero_ttscb ∧
      scaled_gaplen wrap32 ru_tts_config zero_ttscb ≤ 250 ∧
      (translate_params wrap32 ru_tts_config zero_ttscb).gaplen =
        (translate_params id ru_tts_config zero_ttscb).gaplen ∧
      -50 ≤ clamp (250 - ru_tts_config.speech_rate) 0 250 * ru_tts_config.gap_factor -
          100 * (translate_params wrap32 ru_tts_config zero_ttscb).gaplen ∧
      clamp (250 - ru_tts_config.speech_rate) 0 250 * ru_tts_config.gap_factor -
          100 * (translate_params wrap32 ru_tts_config zero_ttscb).gaplen < 50) ∧
    (translate_params wrap32 { ru_tts_config with gap_factor := 100 } zero_ttscb).gaplen =
      clamp (250 - ru_tts_config.speech_rate) 0 250 :=
  ⟨by decide, by decide,
    (C20_rounding ru_tts_config zero_ttscb (by decide) (by decide)).1,
    (C20_rounding ru_tts_config zero_ttscb (by decide) (by decide)).2.1,
    (C20_rounding ru_tts_config zero_ttscb (by decide) (by decide)).2.2.1,
    by decide,
    (C20_rounding ru_tts_config zero_ttscb (by decide) (by decide)).2.2.2.1 (by decide),
    (C20_rounding ru_tts_config zero_ttscb (by decide) (by decide)).2.2.2.2⟩

end RuTts
